import Mathlib

/-!
Shallow embedding of the DST cluster/shard supervisor (src/core/shard.py,
src/core/cluster.py, src/core/_server_base.py) and proofs about the
specification's claims.

Conventions:
* Python strings are Lean `String`s; helper functions (`pyStrip`, `pySplit`,
  `pyLower`, `pyInt`) model the Python string/`int` operations the source uses.
* `subprocess.Popen` is modelled by `PopenModel`; file streams are modelled as
  the list of lines `readline` will deliver.
* Durations are natural numbers of seconds.
-/

/-! ### Python string primitives -/

/-- The ASCII whitespace characters `str.strip()` removes. -/
def pyWhitespace (c : Char) : Bool :=
  c = ' ' || c = '\t' || c = '\n' || c = '\r' || c = '\x0b' || c = '\x0c'

/-- `str.strip()` on the character list: drop whitespace from both ends. -/
def pyStripList (l : List Char) : List Char :=
  ((l.dropWhile pyWhitespace).reverse.dropWhile pyWhitespace).reverse

/-- Python `str.strip()`. -/
def pyStrip (s : String) : String := String.mk (pyStripList s.data)

/-- Python `str.split(sep)` for a one-character separator, on character lists:
splits at every occurrence of `sep`, keeping empty groups (`"a||b"` gives
`["a", "", "b"]`, `""` gives `[""]`). -/
def splitOnChar (sep : Char) : List Char → List (List Char)
  | [] => [[]]
  | c :: cs =>
    if c = sep then [] :: splitOnChar sep cs
    else
      match splitOnChar sep cs with
      | [] => [[c]]
      | g :: gs => (c :: g) :: gs

/-- Python `str.split(sep)` for a one-character separator. -/
def pySplit (s : String) (sep : Char) : List String :=
  (splitOnChar sep s.data).map String.mk

/-- Python `str.lower()` (the keys the source compares are ASCII). -/
def pyLower (s : String) : String := String.mk (s.data.map Char.toLower)

/-- Value of a decimal digit character. -/
def digitVal (c : Char) : Nat := c.toNat - '0'.toNat

/-- Decimal value of a digit list. -/
def digitsToNat (l : List Char) : Nat := l.foldl (fun n c => 10 * n + digitVal c) 0

/-- Core of Python `int(str)` after whitespace stripping: an optional sign
followed by a non-empty run of decimal digits; anything else raises
`ValueError`, modelled as `none`. -/
def pyIntCore (l : List Char) : Option Int :=
  match l with
  | [] => none
  | c :: cs =>
    if c = '+' then
      if cs.isEmpty then none
      else if cs.all Char.isDigit then some (digitsToNat cs : Int) else none
    else if c = '-' then
      if cs.isEmpty then none
      else if cs.all Char.isDigit then some (-(digitsToNat cs : Int)) else none
    else if (c :: cs).all Char.isDigit then some (digitsToNat (c :: cs) : Int)
    else none

/-- Python `int(str)`: surrounding whitespace is ignored, then an optionally
signed decimal literal; `none` models the `ValueError` raised otherwise. -/
def pyInt (s : String) : Option Int := pyIntCore (pyStripList s.data)

/-! ### Process model -/

/-- Model of the `subprocess.Popen` object as the source uses it.
`returncode` mirrors the Python attribute: it is `none` (Python `None`) until a
`poll`/`wait` call has observed the child's exit, after which it is the exit
status. `exited` is the ghost truth of whether the child process has actually
terminated by now (so an observed `returncode = some c` entails `exited`). -/
structure PopenModel where
  returncode : Option Int
  exited : Bool
deriving DecidableEq

/-- Python truthiness of the expression `not self._process.returncode`:
`None` and `0` are falsy, every other integer is truthy. -/
def py_not_returncode : Option Int → Bool
  | none => true
  | some c => c == 0

/-- `Shard.is_running` (src/core/shard.py lines 173-178):
`if self._process and not self._process.returncode: return True else: return False`.
The argument is the `self._process` field (`none` = Python `None`). -/
def is_running (process : Option PopenModel) : Bool :=
  match process with
  | none => false
  | some p => py_not_returncode p.returncode

/-! ### Telemetry handling (`Shard._update_stats`) -/

/-- Model of the `Shard.stats` dict: one optional field per key the source ever
writes (`"session_id"`, `"port"`, `"num_players"`, `"data_file"`); a `none`
field models an absent key. `data_file` keeps the raw `Path` argument string. -/
structure Stats where
  session_id : Option String := none
  port : Option Int := none
  num_players : Option Int := none
  data_file : Option String := none
deriving DecidableEq

/-- The Python exceptions relevant here. -/
inductive PyError
  | valueError
deriving DecidableEq

/-- The `match stats_key.lower():` dispatch of `Shard._update_stats`
(src/core/shard.py lines 139-162), applied to the two halves of the split line.
In the `dst_stats` case the five comma-separated values are destructured into
the local variables `cpu_load1, cpu_load2, unknown, num_players, max_players`
and never stored anywhere; a comma count other than 4 raises `ValueError` from
the 5-tuple unpacking.  `int()` raises `ValueError` on a non-integer value.
Unknown keys are logged as a warning and ignored. -/
def update_stats_kv (stats : Stats) (stats_key stats_value : String) :
    Except PyError Stats :=
  match pyLower stats_key with
  | "dst_stats" =>
    match pySplit stats_value ',' with
    | [_, _, _, _, _] => .ok stats
    | _ => .error .valueError
  | "dst_sessionid" => .ok { stats with session_id := some stats_value }
  | "dst_master_ready" =>
    match pyInt stats_value with
    | some n => .ok { stats with port := some n }
    | none => .error .valueError
  | "dst_numplayerschanged" =>
    match pyInt stats_value with
    | some n => .ok { stats with num_players := some n }
    | none => .error .valueError
  | "dst_saved" => .ok { stats with data_file := some stats_value }
  | _ => .ok stats

/-- One execution of the body of `if stats_raw:` in `Shard._update_stats`
(src/core/shard.py lines 138-162) on the stripped, non-empty line `raw`:
`stats_key, stats_value = stats_raw.split("|")` raises `ValueError` unless the
split yields exactly two parts, then dispatches on the lowered key. -/
def update_stats_line (stats : Stats) (raw : String) : Except PyError Stats :=
  match pySplit raw '|' with
  | [stats_key, stats_value] => update_stats_kv stats stats_key stats_value
  | _ => .error .valueError

/-- State the `_update_stats` loop works on: the shared `stats` dict, the
`self._process` field, and the fd5 stream, modelled as the list of lines not
yet consumed plus whether the write end is closed (`eof`; at end-of-file
`readline()` returns `""` immediately). -/
structure TelemetryState where
  stats : Stats
  process : Option PopenModel
  pending : List String
  eof : Bool
deriving DecidableEq

/-- How a run of the `_update_stats` loop can end. -/
inductive LoopOutcome
  /-- the `while` condition went false: the loop exits through its `else`
  branch, logs, and returns normally -/
  | finished
  /-- an uncaught exception propagated out of `_update_stats`, terminating the
  thread running it -/
  | died (e : PyError)
  /-- `readline()` blocks: no pending data and the write end still open -/
  | blockedOnRead
deriving DecidableEq

/-- Fuel-indexed run of the `while self.is_running():` loop of
`Shard._update_stats` (src/core/shard.py lines 134-165).  `none` means the
loop was still iterating when the fuel ran out: if this holds for every fuel
bound the loop never terminates.  Each iteration re-checks `is_running()`,
reads one line, strips it, skips it if empty, and otherwise processes it. -/
def updateStatsRun : Nat → TelemetryState → Option (LoopOutcome × TelemetryState)
  | 0, _ => none
  | fuel + 1, st =>
    if is_running st.process then
      match st.pending with
      | [] =>
        if st.eof then updateStatsRun fuel st
        else some (.blockedOnRead, st)
      | raw :: rest =>
        let s := pyStrip raw
        if s = "" then updateStatsRun fuel { st with pending := rest }
        else
          match update_stats_line st.stats s with
          | .error e => some (.died e, { st with pending := rest })
          | .ok stats1 => updateStatsRun fuel { st with stats := stats1, pending := rest }
    else some (.finished, st)

/-! ### Control channel (`Shard._send_cmd`) -/

/-- The sentinel line terminating a command response. -/
def sentinel : String := "DST_RemoteCommandDone"

/-- The collection loop of `Shard._send_cmd` (src/core/shard.py lines 218-224)
on the stream of lines the child writes to fd4: consume lines until one whose
`strip()` equals the sentinel (that line is excluded), collecting the rest.
`none` models the call never returning: if the stream holds no such line,
`readline()` either blocks forever or, at end-of-file, returns `""` forever,
and `"".strip()` never equals the sentinel, so `while True` never breaks. -/
def send_cmd_collect : List String → Option (List String)
  | [] => none
  | line :: rest =>
    if pyStrip line = sentinel then some []
    else (send_cmd_collect rest).map (fun ls => line :: ls)

/-- `Shard._send_cmd`'s return value: `result = "".join(lines)`. -/
def send_cmd (stream : List String) : Option String :=
  (send_cmd_collect stream).map (fun ls => String.join ls)

/-! ### Timeout machinery (`ServerBase._timeout_call`) -/

/-- Timing behaviour of a blocking call handed to `_timeout_call`: either it
returns a value `t` seconds after the call, or it never returns (for example,
blocked forever in a pipe `readline`). -/
inductive BlockingBehavior (α : Type)
  | returnsAfter (t : Nat) (val : α)
  | neverReturns
deriving DecidableEq

/-- What the thread calling `_timeout_call` observes. -/
inductive CallerResult (α : Type)
  | returned (t : Nat) (val : α)
  | blockedForever
deriving DecidableEq

/-- `ServerBase._timeout_call` (src/core/_server_base.py lines 54-73): starts a
`threading.Timer` whose callback raises `TimeoutError`, then evaluates
`func(*args, **kwargs)` in the calling thread and cancels the timer.
CPython semantics: `threading.Timer` runs its callback in a separate thread;
the `TimeoutError` raised there propagates only within the timer thread
(reported by `threading.excepthook`), terminating that thread — it is never
delivered to the thread blocked in `func`.  Hence the caller obtains `func`'s
result whenever `func` returns, however late, and stays blocked forever when
`func` never returns; the `timeout` argument has no effect on what the caller
observes. -/
def timeout_call {α : Type} (behavior : BlockingBehavior α) (timeout : Nat) :
    CallerResult α :=
  match behavior, timeout with
  | .returnsAfter t v, _ => .returned t v
  | .neverReturns, _ => .blockedForever

/-- Whether the timer thread fires `handle_timeout` (raising `TimeoutError`
inside the timer thread and dying): it fires unless `timer.cancel()` ran
strictly before the deadline, i.e. unless `func` returned before `timeout`. -/
def timer_thread_raises {α : Type} (behavior : BlockingBehavior α)
    (timeout : Nat) : Bool :=
  match behavior with
  | .returnsAfter t _ => decide (timeout ≤ t)
  | .neverReturns => true

/-- Timing of `Shard._send_cmd` on a given fd4 stream: when the stream contains
a sentinel the call returns the joined result at the instant `arrival` at which
the sentinel line arrives; otherwise it never returns. -/
def send_cmd_behavior (stream : List String) (arrival : Nat) :
    BlockingBehavior String :=
  match send_cmd stream with
  | some r => .returnsAfter arrival r
  | none => .neverReturns

/-- `Shard._timeout_cmd` (src/core/shard.py lines 230-236):
`self._timeout_call(self._send_cmd, timeout=timeout, kwargs={command})`. -/
def timeout_cmd (stream : List String) (arrival : Nat) (timeout : Nat) :
    CallerResult String :=
  timeout_call (send_cmd_behavior stream arrival) timeout

/-! ### Stopping (`Shard.stop`, `Shard._stop_by_signal`) -/

/-- Signals a `Popen` can send to its child. -/
inductive Signal
  | sigterm
  | sigkill
deriving DecidableEq

/-- `Shard._stop_by_signal` (src/core/shard.py lines 238-246) — defined in the
source but never called from anywhere: `process.terminate()`,
`process.wait(timeout=10.0)`, and on `TimeoutExpired` `process.kill()` plus an
unconditional `wait()`.  Parameterised by whether the child exits within the
10-second grace period; returns the signals sent, in order. -/
def stop_by_signal (exitsWithinGrace : Bool) : List Signal :=
  if exitsWithinGrace then [Signal.sigterm]
  else [Signal.sigterm, Signal.sigkill]

/-- How a `stop()` call ends for the calling thread. -/
inductive StopOutcome
  /-- `_stop_by_cmd` returned and `stop` went on to join the monitor thread -/
  | cmdReturned
  /-- the calling thread never returns from `_stop_by_cmd` -/
  | blockedForever
deriving DecidableEq

/-- `Shard.stop` (src/core/shard.py lines 191-198) for a shard whose
`self._process` is `process` and whose `c_shutdown` invocation behaves as
`cmd`: when `is_running()` it runs `_stop_by_cmd` =
`_timeout_cmd("c_shutdown(...)", timeout=60.0)` and then joins the monitor
thread; otherwise it only logs a warning.  No path sends any signal
(`_stop_by_signal` is unreferenced) and no path clears or reaps
`self._process`.  Returns the outcome for the calling thread, the signals sent
to the child, and the `self._process` field afterwards. -/
def shard_stop (process : Option PopenModel) (cmd : BlockingBehavior String) :
    StopOutcome × List Signal × Option PopenModel :=
  if is_running process then
    match timeout_call cmd 60 with
    | .returned _ _ => (.cmdReturned, [], process)
    | .blockedForever => (.blockedForever, [], process)
  else (.cmdReturned, [], process)

/-! ### Starting (`Shard.start`, `Cluster.start`) -/

/-- State of one `Shard` relevant to `start`: the `self._process` field plus
ghost records of the observable side effects (number of `Popen` spawns so far,
whether `load_config`, `_open_fd_files` and `_monitor_stats` have run). -/
structure ShardModel where
  process : Option PopenModel := none
  spawnCount : Nat := 0
  configLoaded : Bool := false
  fdsOpen : Bool := false
  monitorStarted : Bool := false
deriving DecidableEq

/-- `Shard.start` (src/core/shard.py lines 180-189): if not `is_running()`,
load the config, open the fd 3/4/5 files, spawn the server process (a fresh
`Popen` handle with `returncode = None`), and start the monitor thread;
otherwise log a warning and do nothing. -/
def shard_start (sh : ShardModel) : ShardModel :=
  if ¬ is_running sh.process then
    { sh with
      configLoaded := true
      fdsOpen := true
      process := some { returncode := none, exited := false }
      spawnCount := sh.spawnCount + 1
      monitorStarted := true }
  else sh

/-- State of a `Cluster` relevant to `start`: its shard list plus a ghost
record of `load_config` having run. -/
structure ClusterModel where
  configLoaded : Bool := false
  shard_list : List ShardModel := []
deriving DecidableEq

/-- `Cluster.is_running` (src/core/cluster.py lines 197-199):
`any(shard.is_running() for shard in self.shard_list)`. -/
def cluster_is_running (c : ClusterModel) : Bool :=
  c.shard_list.any (fun sh => is_running sh.process)

/-- A freshly constructed `Shard(dir_path=..., cluster=self)`: no process, no
side effects yet. -/
def mkShard : ShardModel := {}

/-- `Cluster.start` (src/core/cluster.py lines 208-222).  `steamOk` / `modsOk`
abstract the outcomes of the external collaborators `update_steam` /
`update_mods`; `update_steam` failing raises `RuntimeError("Steam 更新失败")`
(src/core/cluster.py lines 177-180), which propagates out of `update()` and
`start()` uncaught.  `discovered` is the list of subdirectories
`_detect_shard_paths` would enumerate, one freshly constructed shard each.
An `Except.error` carries the uncaught exception's message together with the
cluster state at the moment the exception propagates out of `start`. -/
def cluster_start (steamOk modsOk : Bool) (discovered : List String)
    (c : ClusterModel) : Except (String × ClusterModel) ClusterModel :=
  if ¬ cluster_is_running c then
    let c1 : ClusterModel := { c with configLoaded := true }
    if ¬ steamOk then .error ("Steam 更新失败", c1)
    else if ¬ modsOk then .error ("mod 更新失败", c1)
    else
      let c2 : ClusterModel :=
        if c1.shard_list.isEmpty then
          { c1 with shard_list := discovered.map (fun _ => mkShard) }
        else c1
      .ok { c2 with shard_list := c2.shard_list.map shard_start }
  else .ok c

/-! ### Helper lemmas -/

/-- If a list holds no separator, splitting yields a single group. -/
theorem splitOnChar_of_not_mem {sep : Char} {l : List Char} (h : sep ∉ l) :
    splitOnChar sep l = [l] := by
  induction l with
  | nil => rfl
  | cons c cs ih =>
    have hc : ¬ c = sep := fun e => h (e ▸ List.mem_cons_self c cs)
    have hcs : sep ∉ cs := fun m => h (List.mem_cons_of_mem _ m)
    simp [splitOnChar, hc, ih hcs]

/-- Splitting at the first separator isolates the separator-free prefix. -/
theorem splitOnChar_append {sep : Char} {xs : List Char} (ys : List Char)
    (h : sep ∉ xs) :
    splitOnChar sep (xs ++ sep :: ys) = xs :: splitOnChar sep ys := by
  induction xs with
  | nil => simp [splitOnChar]
  | cons c cs ih =>
    have hc : ¬ c = sep := fun e => h (e ▸ List.mem_cons_self c cs)
    have hcs : sep ∉ cs := fun m => h (List.mem_cons_of_mem _ m)
    simp [splitOnChar, hc, ih hcs]

/-- The number of split groups is the separator count plus one. -/
theorem splitOnChar_length (sep : Char) (l : List Char) :
    (splitOnChar sep l).length = l.count sep + 1 := by
  induction l with
  | nil => simp [splitOnChar]
  | cons c cs ih =>
    by_cases hc : c = sep
    · subst hc
      simp [splitOnChar, ih, List.count_cons]
    · cases hsp : splitOnChar sep cs with
      | nil =>
        exfalso
        have := ih
        rw [hsp] at this
        simp at this
      | cons g gs =>
        have hlen := ih
        rw [hsp] at hlen
        simp at hlen
        simp [splitOnChar, hc, hsp, List.count_cons, Ne.symm hc]
        omega

/-- A character failing the predicate survives `dropWhile`. -/
theorem mem_dropWhile_of_mem {p : Char → Bool} {c : Char} {l : List Char}
    (hm : c ∈ l) (hc : p c = false) : c ∈ l.dropWhile p := by
  induction l with
  | nil => cases hm
  | cons a l ih =>
    rw [List.dropWhile_cons]
    split
    · next ha =>
      rcases List.mem_cons.mp hm with rfl | hm2
      · rw [hc] at ha; cases ha
      · exact ih hm2
    · exact hm

/-- A non-whitespace character survives `str.strip()`. -/
theorem mem_pyStripList_of_mem {c : Char} {l : List Char}
    (hm : c ∈ l) (hc : pyWhitespace c = false) : c ∈ pyStripList l := by
  unfold pyStripList
  rw [List.mem_reverse]
  exact mem_dropWhile_of_mem
    (List.mem_reverse.mpr (mem_dropWhile_of_mem hm hc)) hc

/-- A list holding `'|'` is not all decimal digits. -/
theorem not_all_digit_of_pipe {m : List Char} (hmem : '|' ∈ m) :
    ¬ m.all Char.isDigit = true := by
  intro hmall
  exact absurd (List.all_eq_true.mp hmall _ hmem) (by decide)

/-- `int()` rejects any input whose stripped form still holds `'|'`. -/
theorem pyIntCore_eq_none_of_pipe {l : List Char} (h : '|' ∈ l) :
    pyIntCore l = none := by
  cases l with
  | nil => cases h
  | cons c cs =>
    rcases List.mem_cons.mp h with rfl | hcs
    · simp only [pyIntCore]
      rw [if_neg (by decide), if_neg (by decide),
        if_neg (not_all_digit_of_pipe (List.mem_cons_self _ _))]
    · simp only [pyIntCore]
      by_cases hplus : c = '+'
      · subst hplus
        rw [if_pos rfl]
        by_cases hemp : cs.isEmpty = true
        · rw [if_pos hemp]
        · rw [if_neg hemp, if_neg (not_all_digit_of_pipe hcs)]
      · rw [if_neg hplus]
        by_cases hminus : c = '-'
        · subst hminus
          rw [if_pos rfl]
          by_cases hemp : cs.isEmpty = true
          · rw [if_pos hemp]
          · rw [if_neg hemp, if_neg (not_all_digit_of_pipe hcs)]
        · rw [if_neg hminus,
            if_neg (not_all_digit_of_pipe (List.mem_cons_of_mem _ hcs))]

/-- A string `int()` accepts holds no `'|'`. -/
theorem pyInt_pipe_not_mem {s : String} {n : Int} (h : pyInt s = some n) :
    '|' ∉ s.data := by
  intro hmem
  have hnone : pyInt s = none :=
    pyIntCore_eq_none_of_pipe (mem_pyStripList_of_mem hmem (by decide))
  rw [h] at hnone
  cases hnone

/-- A line whose `'|'` count is not exactly one makes the
`stats_key, stats_value = stats_raw.split("|")` destructuring raise
`ValueError`. -/
theorem update_stats_line_eq_error {stats : Stats} {raw : String}
    (h : raw.data.count '|' ≠ 1) :
    update_stats_line stats raw = .error .valueError := by
  have hlen : (splitOnChar '|' raw.data).length ≠ 2 := by
    rw [splitOnChar_length]
    omega
  unfold update_stats_line pySplit
  cases hsp : splitOnChar '|' raw.data with
  | nil => simp
  | cons a t =>
    cases t with
    | nil => simp
    | cons b t2 =>
      cases t2 with
      | nil =>
        exfalso
        rw [hsp] at hlen
        simp at hlen
      | cons d t3 => simp

/-- The collection loop of `_send_cmd` on a stream of non-sentinel lines
followed by the literal sentinel line gathers exactly those lines. -/
theorem send_cmd_collect_append :
    ∀ lines : List String, (∀ l ∈ lines, pyStrip l ≠ sentinel) →
      send_cmd_collect (lines ++ ["DST_RemoteCommandDone\n"]) = some lines := by
  intro lines
  induction lines with
  | nil =>
    intro _
    simp [send_cmd_collect,
      show pyStrip "DST_RemoteCommandDone\n" = sentinel from by decide]
  | cons l ls ih =>
    intro h
    have hl : pyStrip l ≠ sentinel := h l (List.mem_cons_self _ _)
    have hls := ih fun x hx => h x (List.mem_cons_of_mem _ hx)
    simp [send_cmd_collect, hl, hls]

/-! ### Claim theorems -/

/-- Claim C1 (code evaluation at the failing inputs).  The claim says a command
invocation whose sentinel does not arrive within the timeout raises
`TimeoutError` to the calling thread, which suspends for at most the timeout.
On the code: with a control channel that never delivers the sentinel, the
60-second invocation leaves the calling thread blocked forever — the
`TimeoutError` is raised inside the timer's own thread (which dies alone,
second conjunct) and never reaches the caller; and a sentinel arriving after
100 > 60 seconds still produces a normal return at time 100, not a timeout
failure. -/
theorem C1_timeout_error_never_reaches_caller :
    timeout_cmd [] 0 60 = CallerResult.blockedForever ∧
    timer_thread_raises (send_cmd_behavior [] 0) 60 = true ∧
    timeout_cmd ["ok\n", "DST_RemoteCommandDone\n"] 100 60
      = CallerResult.returned 100 "ok\n" :=
  ⟨rfl, rfl, rfl⟩

/-- Claim C2 (code evaluation at the failing input).  The claim says a `stop()`
whose `c_shutdown` gets no response within 60 seconds escalates to a polite
termination signal, then a forceful kill after 10 more seconds, ending in
`Stopped`.  On the code: for a running shard whose `c_shutdown` invocation
never returns, `stop()` blocks forever, sends no signal at all, and leaves the
process field unchanged, so `is_running()` still reports `true` — while the
unreferenced helper `_stop_by_signal` is exactly the claimed
terminate-then-kill escalation (third conjunct). -/
theorem C2_stop_timeout_never_escalates :
    shard_stop (some { returncode := none, exited := false })
        BlockingBehavior.neverReturns
      = (StopOutcome.blockedForever, [],
          some { returncode := none, exited := false }) ∧
    is_running (some { returncode := none, exited := false }) = true ∧
    stop_by_signal false = [Signal.sigterm, Signal.sigkill] :=
  ⟨rfl, rfl, rfl⟩

/-- Claim C3, counterexample.  The child writes one response line
`"DST_RemoteCommandDone \n"` — not the literal sentinel line, it carries a
trailing space — followed by the literal sentinel line, yet `_send_cmd`
does not return that one line: the loop breaks at the first line whose
`strip()` equals the sentinel, so it returns zero lines. -/
theorem C3_counterexample :
    ¬ send_cmd_collect
        (["DST_RemoteCommandDone \n"] ++ ["DST_RemoteCommandDone\n"])
      = some ["DST_RemoteCommandDone \n"] := by
  decide

/-- Claim C3 as amended: if none of the N response lines `strip()`s to the
sentinel, `_send_cmd` consumes exactly those N lines in order, excludes the
sentinel line, and returns their concatenation. -/
theorem C3_invoke_returns_lines (lines : List String)
    (h : ∀ l ∈ lines, pyStrip l ≠ sentinel) :
    send_cmd_collect (lines ++ ["DST_RemoteCommandDone\n"]) = some lines ∧
    send_cmd (lines ++ ["DST_RemoteCommandDone\n"])
      = some (String.join lines) := by
  have h1 := send_cmd_collect_append lines h
  refine ⟨h1, ?_⟩
  unfold send_cmd
  rw [h1]
  rfl

/-- Witness for the amended C3 at a concrete two-line response. -/
theorem C3_witness :
    (∀ l ∈ ["World saved.\n", "Shutting down.\n"], pyStrip l ≠ sentinel) ∧
    send_cmd_collect
        (["World saved.\n", "Shutting down.\n"] ++ ["DST_RemoteCommandDone\n"])
      = some ["World saved.\n", "Shutting down.\n"] ∧
    send_cmd
        (["World saved.\n", "Shutting down.\n"] ++ ["DST_RemoteCommandDone\n"])
      = some (String.join ["World saved.\n", "Shutting down.\n"]) := by
  have h : ∀ l ∈ ["World saved.\n", "Shutting down.\n"], pyStrip l ≠ sentinel := by
    decide
  exact ⟨h, (C3_invoke_returns_lines _ h).1, (C3_invoke_returns_lines _ h).2⟩

/-- Claim C4 (code evaluation at the failing input).  The claim says the
example `DST_Stats` line updates the player counts and stores both load
samples.  On the code: for every prior status, processing the line returns the
status unchanged — the five comma-separated values are destructured into local
variables and never stored (the stats dict moreover has no key for loads or
max players anywhere in the source). -/
theorem C4_dst_stats_line_discards_values (stats : Stats) :
    update_stats_line stats "DST_Stats|3.226599,2.355073,0.293711,3,8"
      = .ok stats :=
  rfl

/-- Claim C5 (code evaluation at the failing input).  The claim says
`is_running` is true iff the child has not yet exited.  On the code: a child
that exited with status 0 whose exit has been observed (`returncode = 0`) is
still reported as running, because `not self._process.returncode` treats the
falsy exit status `0` like `None`. -/
theorem C5_is_running_true_for_exited_child :
    is_running (some { returncode := some 0, exited := true }) = true ∧
    (PopenModel.mk (some 0) true).exited = true :=
  ⟨rfl, rfl⟩

/-- Claim C6 (code evaluation at the failing input).  The claim says the
telemetry loop terminates at end-of-file or once the owning child is dead.  On
the code: with the stream at end-of-file and the child already exited (status 0
observed), the loop is still iterating after every fuel bound — `readline()`
returns `""`, the empty line is skipped, and `is_running()` still yields
`True` — so `_update_stats` never returns. -/
theorem C6_update_stats_loop_never_terminates (fuel : Nat) (stats : Stats) :
    updateStatsRun fuel
      { stats := stats, process := some { returncode := some 0, exited := true },
        pending := [], eof := true } = none := by
  induction fuel with
  | zero => rfl
  | succ n ih => exact ih

/-- Claim C7: if no shard is running and the Steam updater fails,
`Cluster.start` propagates the `RuntimeError` to its caller; at the moment the
exception propagates the shard list is exactly the original one (zero shards
registered, zero started) and every shard is still not running. -/
theorem C7_steam_update_error_aborts_cluster_start (c : ClusterModel)
    (modsOk : Bool) (discovered : List String)
    (h : ∀ sh ∈ c.shard_list, is_running sh.process = false) :
    cluster_start false modsOk discovered c
      = .error ("Steam 更新失败", { c with configLoaded := true }) ∧
    ({ c with configLoaded := true } : ClusterModel).shard_list
      = c.shard_list ∧
    ∀ sh ∈ c.shard_list, is_running sh.process = false := by
  have hrun : cluster_is_running c = false := by
    unfold cluster_is_running
    rw [List.any_eq_false]
    intro sh hsh
    simp [h sh hsh]
  refine ⟨?_, rfl, h⟩
  simp [cluster_start, hrun]

/-- Witness for C7 at a concrete one-shard stopped cluster. -/
theorem C7_witness :
    (∀ sh ∈ ({ shard_list := [{}] } : ClusterModel).shard_list,
      is_running sh.process = false) ∧
    cluster_start false true ["Master"] { shard_list := [{}] }
      = .error ("Steam 更新失败", { configLoaded := true, shard_list := [{}] }) := by
  have h : ∀ sh ∈ ({ shard_list := [{}] } : ClusterModel).shard_list,
      is_running sh.process = false := by decide
  exact ⟨h,
    (C7_steam_update_error_aborts_cluster_start _ true ["Master"] h).1⟩

/-- Claim C8: `start()` on a shard whose `is_running()` holds only logs a
warning: the shard state is returned unchanged — same process handle, same
spawn count (no new `Popen`), no config/fd/monitor side effect. -/
theorem C8_start_is_noop_when_running (sh : ShardModel)
    (h : is_running sh.process = true) :
    shard_start sh = sh := by
  simp [shard_start, h]

/-- Witness for C8 at a concrete running shard. -/
theorem C8_witness :
    is_running (some { returncode := none, exited := false }) = true ∧
    shard_start
      { process := some { returncode := none, exited := false }, spawnCount := 1,
        configLoaded := true, fdsOpen := true, monitorStarted := true }
      = { process := some { returncode := none, exited := false }, spawnCount := 1,
          configLoaded := true, fdsOpen := true, monitorStarted := true } :=
  ⟨rfl, C8_start_is_noop_when_running _ rfl⟩

/-- Claim C9: processing `DST_NumPlayersChanged|s` where `int(s)` is the
integer `n` replaces `num_players` by `n` and leaves every other status field
(session id, port, saved-data path) unchanged. -/
theorem C9_numplayerschanged_updates_only_count (stats : Stats) (s : String)
    (n : Int) (h : pyInt s = some n) :
    update_stats_line stats ("DST_NumPlayersChanged|" ++ s)
      = .ok { stats with num_players := some n } := by
  have hs : '|' ∉ s.data := pyInt_pipe_not_mem h
  have hk : '|' ∉ ("DST_NumPlayersChanged" : String).data := by decide
  have hdata : ("DST_NumPlayersChanged|" ++ s).data
      = ("DST_NumPlayersChanged" : String).data ++ '|' :: s.data := by
    rw [String.data_append]
    rfl
  have hsplit : pySplit ("DST_NumPlayersChanged|" ++ s) '|'
      = ["DST_NumPlayersChanged", s] := by
    unfold pySplit
    rw [hdata, splitOnChar_append _ hk, splitOnChar_of_not_mem hs]
    rfl
  unfold update_stats_line
  rw [hsplit]
  show update_stats_kv stats "DST_NumPlayersChanged" s
    = .ok { stats with num_players := some n }
  have hkv : update_stats_kv stats "DST_NumPlayersChanged" s
      = match pyInt s with
        | some m => .ok { stats with num_players := some m }
        | none => .error .valueError := rfl
  rw [hkv, h]

/-- Witness for C9 at the spec's concrete line `DST_NumPlayersChanged|2`. -/
theorem C9_witness :
    pyInt "2" = some 2 ∧
    update_stats_line
      { session_id := some "804FE0E9FFCE345E", port := some 10999,
        num_players := some 1, data_file := none }
      ("DST_NumPlayersChanged|" ++ "2")
      = .ok { session_id := some "804FE0E9FFCE345E", port := some 10999,
              num_players := some 2, data_file := none } :=
  ⟨by decide,
    C9_numplayerschanged_updates_only_count
      { session_id := some "804FE0E9FFCE345E", port := some 10999,
        num_players := some 1, data_file := none } "2" 2 (by decide)⟩

/-- Claim C10: a non-empty (stripped) telemetry line whose `'|'` count is not
exactly one makes the `stats_key, stats_value = stats_raw.split("|")`
destructuring raise `ValueError`; the exception is uncaught, so the iteration
of `_update_stats` processing that line ends the loop with the exception
propagating out of the thread's target, terminating the telemetry thread. -/
theorem C10_malformed_line_kills_thread (stats : Stats) (raw : String)
    (h1 : pyStrip raw ≠ "")
    (h2 : (pyStrip raw).data.count '|' ≠ 1) :
    update_stats_line stats (pyStrip raw) = .error .valueError ∧
    updateStatsRun 1
      { stats := stats, process := some { returncode := none, exited := false },
        pending := [raw], eof := false }
      = some (.died .valueError,
          { stats := stats,
            process := some { returncode := none, exited := false },
            pending := [], eof := false }) := by
  have herr : update_stats_line stats (pyStrip raw) = .error .valueError :=
    update_stats_line_eq_error h2
  refine ⟨herr, ?_⟩
  simp [updateStatsRun, is_running, py_not_returncode, h1, herr]

/-- Witness for C10 at the concrete pipe-free line `"abc"`. -/
theorem C10_witness :
    pyStrip "abc" ≠ "" ∧ (pyStrip "abc").data.count '|' ≠ 1 ∧
    update_stats_line {} (pyStrip "abc") = .error .valueError :=
  ⟨by decide, by decide,
    (C10_malformed_line_kills_thread {} "abc" (by decide) (by decide)).1⟩
